import Mathlib

/-!
Verification of the TLS-handshake camouflage core of the Cloak proxy
(src/internal/server/TLS.go), shallowly embedded in Lean 4.

Byte buffers are `List Nat` (each element intended in 0..255).  Go's
panic/recover error boundary is modelled explicitly: the straight-line
parser body returns `Option` (with `none` standing for a Go runtime
panic from an out-of-bounds slice) and the wrapper converts `none` into
the single recovered error value, exactly as the deferred `recover`
blocks in the source do.  Go functions that mutate a buffer in place
(`xor`, and through it `composeServerHello`/`composeReply`) are modelled
by returning the post-call contents of that buffer alongside their
result.  The fresh random bytes drawn by `crypto/rand` inside
`composeServerHello` are threaded as an explicit `keyExchange`
parameter (a random tape).
-/

set_option maxRecDepth 10000

namespace Cloak

/-- Model of `binary.BigEndian.Uint16` restricted to its uses in TLS.go:
reads the first two bytes big-endian (all call sites pass exactly two
bytes, carved out by a bounds-checked slice). -/
def u16 : List Nat → Nat
  | a :: b :: _ => a * 256 + b
  | _ => 0

/-- Model of `binary.BigEndian.Uint32`: first four bytes, big-endian. -/
def u32 : List Nat → Nat
  | a :: b :: c :: d :: _ => ((a * 256 + b) * 256 + c) * 256 + d
  | _ => 0

/-- A Go `map[[2]byte][]byte` is modelled as an association list with
unique keys; `mapInsert` mirrors Go map assignment (replace the binding
for the key if present). -/
abbrev ExtMap := List ((Nat × Nat) × List Nat)

def mapInsert (m : ExtMap) (k : Nat × Nat) (v : List Nat) : ExtMap :=
  m.filter (fun p => p.1 != k) ++ [(k, v)]

/-- Loop body of `parseExtensions` (TLS.go lines 34-54).  The Go loop
walks a cursor over `input`; since every read happens at the cursor
frontier, the model carries the remaining suffix `rem = input[pointer:]`
instead of the cursor.  Reading the 2-byte tag, the 2-byte length, or a
`length`-byte body past the end of the input panics in Go and is
recovered into the error `"Malformed Extensions"`; the named return
`ret` keeps the entries accumulated so far, so the partial map is
returned alongside the error.  `fuel` only forces structural
termination: each iteration consumes at least 4 bytes, so the wrapper's
`input.length + 1` never runs out before the loop ends on its own. -/
def extLoop : Nat → List Nat → ExtMap → ExtMap × Option String
  | _, [], acc => (acc, none)
  | 0, _ :: _, acc => (acc, some "Malformed Extensions")
  | fuel + 1, a :: b :: c :: d :: rest, acc =>
      if c * 256 + d ≤ rest.length then
        extLoop fuel (rest.drop (c * 256 + d)) (mapInsert acc (a, b) (rest.take (c * 256 + d)))
      else (acc, some "Malformed Extensions")
  | _ + 1, _ :: _, acc => (acc, some "Malformed Extensions")

/-- Model of `parseExtensions` (TLS.go lines 34-54): returns the map
and the recovered error, mirroring the Go named-return pair. -/
def parseExtensions (input : List Nat) : ExtMap × Option String :=
  extLoop (input.length + 1) input []

/-- One entry of a client key-share extension body:
`namedGroup(2 bytes as group1,group2) | keyExchangeLen(2) | keyExchange`. -/
structure KSEntry where
  group1 : Nat
  group2 : Nat
  body : List Nat
deriving DecidableEq

/-- Wire bytes of one key-share entry. -/
def ksEntryBytes (e : KSEntry) : List Nat :=
  e.group1 :: e.group2 :: e.body.length / 256 :: e.body.length % 256 :: e.body

/-- Wire bytes of a list of key-share entries. -/
def ksFlatten (entries : List KSEntry) : List Nat :=
  (entries.map ksEntryBytes).flatten

/-- The x25519 named group 0x001d. -/
def isX25519 (e : KSEntry) : Bool :=
  e.group1 == 0x00 && e.group2 == 0x1d

/-- Loop body of `parseKeyShare` (TLS.go lines 56-83).  The Go loop
condition is `pointer < totalLen` with `pointer` starting at 2; the
model carries `rem = input[pointer:]` (all reads are at the cursor
frontier) and `remLen = totalLen - pointer` (the loop guard, with Nat
truncation matching the `<` comparison).  Out-of-range slice reads panic
in Go and are recovered into `"malformed key_share"`. -/
def keyShareLoop : Nat → List Nat → Nat → Except String (List Nat)
  | _, _, 0 => .error "x25519 does not exist"
  | 0, _, _ + 1 => .error "malformed key_share"
  | fuel + 1, g1 :: g2 :: l1 :: l2 :: rest, rl + 1 =>
      if g1 = 0x00 ∧ g2 = 0x1d then
        if l1 * 256 + l2 ≠ 32 then
          .error ("key share length should be 32, instead of " ++ toString (l1 * 256 + l2))
        else if l1 * 256 + l2 ≤ rest.length then .ok (rest.take (l1 * 256 + l2))
        else .error "malformed key_share"
      else
        if l1 * 256 + l2 ≤ rest.length then
          keyShareLoop fuel (rest.drop (l1 * 256 + l2)) (rl + 1 - (4 + (l1 * 256 + l2)))
        else .error "malformed key_share"
  | _ + 1, _, _ + 1 => .error "malformed key_share"

/-- Model of `parseKeyShare` (TLS.go lines 56-83).  `totalLen` is read
from the first two bytes (a panic if fewer than two bytes exist), the
cursor starts at 2. -/
def parseKeyShare (input : List Nat) : Except String (List Nat) :=
  match input with
  | t1 :: t2 :: rest => keyShareLoop (t1 * 256 + t2 + 1) rest (t1 * 256 + t2 - 2)
  | _ => .error "malformed key_share"

/-- Model of `addRecordLayer` (TLS.go lines 86-95).  `uint16(len(input))`
truncates the length modulo 2^16 before the big-endian split.  The Go
`copy` into the zero-initialised header pads with zeros if `typ` or
`ver` are shorter than their slots, which `List.takeD` reproduces. -/
def addRecordLayer (input typ ver : List Nat) : List Nat :=
  List.takeD 1 typ 0 ++ List.takeD 2 ver 0 ++
    [input.length % 65536 / 256, input.length % 65536 % 256] ++ input

/-- Model of the parsed ClientHello struct (TLS.go lines 16-29). -/
structure ClientHello where
  handshakeType : Nat
  length : Nat
  clientVersion : List Nat
  random : List Nat
  sessionIdLen : Nat
  sessionId : List Nat
  cipherSuitesLen : Nat
  cipherSuites : List Nat
  compressionMethodsLen : Nat
  compressionMethods : List Nat
  extensionsLen : Nat
  extensions : ExtMap
deriving DecidableEq

/-- Read one byte at the cursor frontier (`peeled[pointer]`); `none` is
the Go index-out-of-range panic. -/
def read1 : List Nat → Option (Nat × List Nat)
  | [] => none
  | a :: rest => some (a, rest)

/-- Read `n` bytes at the cursor frontier (`peeled[pointer:pointer+n]`);
`none` is the Go slice-bounds panic. -/
def readN (n : Nat) (l : List Nat) : Option (List Nat × List Nat) :=
  if n ≤ l.length then some (l.take n, l.drop n) else none

/-- Body of `parseClientHello` (TLS.go lines 99-161) after the record
header has been peeled.  `none` is an escaped Go panic, recovered by the
wrapper into `"Malformed ClientHello"`.  Note the tail of the source:
`extensions, err := parseExtensions(...)` followed by a naked return, so
an extensions failure is returned alongside the constructed struct. -/
def parseClientHelloAux (peeled : List Nat) : Option (Option ClientHello × Option String) :=
  match read1 peeled with
  | none => none
  | some (handshakeType, r0) =>
    if handshakeType ≠ 0x01 then some (none, some "Not a ClientHello")
    else
      match readN 3 r0 with
      | none => none
      | some (lenBytes, r1) =>
        if u32 (0x00 :: lenBytes) ≠ r1.length then some (none, some "Hello length doesn't match")
        else
          match readN 2 r1 with
          | none => none
          | some (clientVersion, r2) =>
            match readN 32 r2 with
            | none => none
            | some (random, r3) =>
              match read1 r3 with
              | none => none
              | some (sessionIdLen, r4) =>
                match readN sessionIdLen r4 with
                | none => none
                | some (sessionId, r5) =>
                  match readN 2 r5 with
                  | none => none
                  | some (csLenBytes, r6) =>
                    match readN (u16 csLenBytes) r6 with
                    | none => none
                    | some (cipherSuites, r7) =>
                      match read1 r7 with
                      | none => none
                      | some (compressionMethodsLen, r8) =>
                        match readN compressionMethodsLen r8 with
                        | none => none
                        | some (compressionMethods, r9) =>
                          match readN 2 r9 with
                          | none => none
                          | some (extLenBytes, r10) =>
                            match parseExtensions r10 with
                            | (extensions, extErr) =>
                              some (some {
                                handshakeType := handshakeType
                                length := u32 (0x00 :: lenBytes)
                                clientVersion := clientVersion
                                random := random
                                sessionIdLen := sessionIdLen
                                sessionId := sessionId
                                cipherSuitesLen := u16 csLenBytes
                                cipherSuites := cipherSuites
                                compressionMethodsLen := compressionMethodsLen
                                compressionMethods := compressionMethods
                                extensionsLen := u16 extLenBytes
                                extensions := extensions },
                                extErr)

/-- Model of `parseClientHello` (TLS.go lines 99-161).  Fewer than 5
bytes makes `make([]byte, len(data)-5)` panic on a negative size; any
panic in the body is recovered into `"Malformed ClientHello"` with a nil
result, mirroring the deferred recover. -/
def parseClientHello (data : List Nat) : Option ClientHello × Option String :=
  if data.length < 5 then (none, some "Malformed ClientHello")
  else
    match parseClientHelloAux (data.drop 5) with
    | none => (none, some "Malformed ClientHello")
    | some r => r

/-- Model of `xor` (TLS.go lines 163-167): Go overwrites `a` in place
with the byte-wise XOR; the model returns the new contents of `a`.  (If
`b` were shorter than `a` the Go loop would panic; every call site
passes two 32-byte buffers.) -/
def xor (a b : List Nat) : List Nat :=
  List.zipWith Nat.xor a b

/-- The fixed key_share extension header `hex "00330024001d0020"` of the
composed ServerHello. -/
def keyShareHeader : List Nat := [0x00, 0x33, 0x00, 0x24, 0x00, 0x1d, 0x00, 0x20]

/-- The fixed supported_versions extension `hex "002b00020304"`. -/
def supportedVersionsExt : List Nat := [0x00, 0x2b, 0x00, 0x02, 0x03, 0x04]

/-- Model of `composeServerHello` (TLS.go lines 169-193).  `keyExchange`
stands for the 32 fresh `crypto/rand` bytes.  The call `xor(sharedSecret,
sessionKey)` mutates the caller's sharedSecret buffer; the second
component of the result is the buffer's contents after the call. -/
def composeServerHello (sessionId sharedSecret sessionKey keyExchange : List Nat) :
    List Nat × List Nat :=
  ([0x02] ++ [0x00, 0x00, 0x76] ++ [0x03, 0x03] ++ xor sharedSecret sessionKey ++
      [0x20] ++ sessionId ++ [0xc0, 0x30] ++ [0x00] ++ [0x00, 0x2e] ++
      (keyShareHeader ++ keyExchange) ++ supportedVersionsExt,
   xor sharedSecret sessionKey)

/-- Model of `composeReply` (TLS.go lines 198-204): ServerHello record
(type 0x16) followed by a ChangeCipherSpec record (type 0x14), both
tagged legacy version 0x0303.  Second component: the sharedSecret
buffer's contents after the call (mutated by `composeServerHello`). -/
def composeReply (ch : ClientHello) (sharedSecret sessionKey keyExchange : List Nat) :
    List Nat × List Nat :=
  (addRecordLayer (composeServerHello ch.sessionId sharedSecret sessionKey keyExchange).1
      [0x16] [0x03, 0x03] ++
    addRecordLayer [0x01] [0x14] [0x03, 0x03],
   (composeServerHello ch.sessionId sharedSecret sessionKey keyExchange).2)

def ErrBadClientHello : String := "non (or malformed) ClientHello"
def ErrNotCloak : String := "TLS but non-Cloak ClientHello"
def ErrBadProxyMethod : String := "invalid proxy method"

/-- Modelled from the spec: the authentication collaborator `TouchStone`
and the server `State` are not under src/.  Per the spec's collaborator
interface, authentication maps the parsed ClientHello to
`(UID, sessionID, proxyMethod, encryptionMethod, sharedSecret)` or an
error; `PrepareConnection` takes it as an abstract function parameter,
and the `ProxyBook` registry as the list of supported method names. -/
structure AuthResult where
  UID : List Nat
  sessionID : Nat
  proxyMethod : String
  encryptionMethod : Nat
  sharedSecret : List Nat

/-- Model of `PrepareConnection` (TLS.go lines 210-239).  The returned
finisher captures the parsed ClientHello and the shared secret; invoked
with a session key (and the random tape for the decorative server key
share) it produces the reply bytes and the post-invocation contents of
the captured sharedSecret buffer.  The network write and the
fire-and-forget close on the failure path are outside the embedding. -/
def PrepareConnection (touchStone : ClientHello → Except String AuthResult)
    (proxyBook : List String) (firstPacket : List Nat) :
    Except String (AuthResult × (List Nat → List Nat → List Nat × List Nat)) :=
  match parseClientHello firstPacket with
  | (_, some _) => .error ErrBadClientHello
  | (some ch, none) =>
    match touchStone ch with
    | .error _ => .error ErrNotCloak
    | .ok a =>
      if proxyBook.contains a.proxyMethod then
        .ok (a, fun sessionKey keyExchange => composeReply ch a.sharedSecret sessionKey keyExchange)
      else .error ErrBadProxyMethod
  | (none, none) => .error ErrBadClientHello

/-! ### Concrete fixtures: a syntactically valid ClientHello packet -/

/-- A 126-byte valid ClientHello record: 32-byte session id (bytes 0x61),
two cipher suites, one compression method, and a single key_share
extension carrying a 32-byte x25519 entry. -/
def helloPkt : List Nat :=
  [0x16, 0x03, 0x01, 0x00, 121, 0x01, 0x00, 0x00, 117, 0x03, 0x03] ++
    List.replicate 32 0x00 ++ [0x20] ++ List.replicate 32 0x61 ++
    [0x00, 0x02, 0xc0, 0x30, 0x01, 0x00, 0x00, 42,
     0x00, 0x33, 0x00, 0x26, 0x00, 0x24, 0x00, 0x1d, 0x00, 0x20] ++
    List.replicate 32 0x09

/-- The structured result of parsing `helloPkt`. -/
def helloCh : ClientHello where
  handshakeType := 0x01
  length := 117
  clientVersion := [0x03, 0x03]
  random := List.replicate 32 0x00
  sessionIdLen := 32
  sessionId := List.replicate 32 0x61
  cipherSuitesLen := 2
  cipherSuites := [0xc0, 0x30]
  compressionMethodsLen := 1
  compressionMethods := [0x00]
  extensionsLen := 42
  extensions := [((0x00, 0x33), [0x00, 0x24, 0x00, 0x1d, 0x00, 0x20] ++ List.replicate 32 0x09)]

lemma helloPkt_parses : parseClientHello helloPkt = (some helloCh, none) := by decide

/-! ### XOR lemmas -/

lemma nat_xor_eq_left {s k : Nat} : s ^^^ k = s ↔ k = 0 := by
  constructor
  · intro h
    have h2 : s ^^^ (s ^^^ k) = s ^^^ s := by rw [h]
    rwa [← Nat.xor_assoc, Nat.xor_self, Nat.zero_xor] at h2
  · intro h
    rw [h, Nat.xor_zero]

lemma xor_length (a b : List Nat) : (xor a b).length = min a.length b.length := by
  simp [xor]

lemma xor_length32 (a b : List Nat) (ha : a.length = 32) (hb : b.length = 32) :
    (xor a b).length = 32 := by
  rw [xor_length, ha, hb]
  exact Nat.min_self 32

lemma xor_xor_cancel (S K : List Nat) (h : S.length = K.length) : xor (xor S K) S = K := by
  induction S generalizing K with
  | nil => cases K with
    | nil => rfl
    | cons k K => simp at h
  | cons s S ih =>
    cases K with
    | nil => simp at h
    | cons k K =>
      simp only [List.length_cons, Nat.add_right_cancel_iff] at h
      simp only [xor, List.zipWith_cons_cons] at *
      rw [ih K h]
      congr 1
      show (s ^^^ k) ^^^ s = k
      rw [Nat.xor_comm s k, Nat.xor_assoc, Nat.xor_self, Nat.xor_zero]

lemma xor_eq_left_iff (S K : List Nat) (h : S.length = K.length) :
    xor S K = S ↔ K = List.replicate S.length 0 := by
  induction S generalizing K with
  | nil => cases K with
    | nil => simp [xor]
    | cons k K => simp at h
  | cons s S ih =>
    cases K with
    | nil => simp at h
    | cons k K =>
      simp only [List.length_cons, Nat.add_right_cancel_iff] at h
      simp only [xor, List.zipWith_cons_cons, List.length_cons, List.replicate_succ,
        List.cons.injEq] at *
      rw [ih K h]
      have hhead : s.xor k = s ↔ k = 0 := nat_xor_eq_left
      tauto

/-! ### Decomposition of the composed ServerHello -/

lemma csh_fst (sid S K kx : List Nat) :
    (composeServerHello sid S K kx).1 =
      [0x02, 0x00, 0x00, 0x76, 0x03, 0x03] ++ xor S K ++ [0x20] ++ sid ++
        ([0xc0, 0x30, 0x00, 0x00, 0x2e] ++ keyShareHeader ++ kx ++ supportedVersionsExt) := by
  simp [composeServerHello]

lemma csh_length (sid S K kx : List Nat) (hS : S.length = 32) (hK : K.length = 32)
    (hsid : sid.length = 32) :
    (composeServerHello sid S K kx).1.length = 90 + kx.length := by
  rw [csh_fst]
  simp [xor_length, hS, hK, hsid, keyShareHeader, supportedVersionsExt]
  omega

lemma csh_take6 (sid S K kx : List Nat) :
    (composeServerHello sid S K kx).1.take 6 = [0x02, 0x00, 0x00, 0x76, 0x03, 0x03] := by
  rw [csh_fst]
  rfl

lemma csh_drop6 (sid S K kx : List Nat) :
    (composeServerHello sid S K kx).1.drop 6 =
      xor S K ++ [0x20] ++ sid ++
        ([0xc0, 0x30, 0x00, 0x00, 0x2e] ++ keyShareHeader ++ kx ++ supportedVersionsExt) := by
  rw [csh_fst]
  rfl

lemma csh_byte38 (sid S K kx : List Nat) (hS : S.length = 32) (hK : K.length = 32) :
    ((composeServerHello sid S K kx).1.drop 38).take 1 = [0x20] := by
  rw [show (38 : Nat) = 6 + 32 by norm_num, ← List.drop_drop, csh_drop6]
  have hx : (xor S K).length = 32 := xor_length32 S K hS hK
  simp only [List.append_assoc]
  rw [List.drop_left' hx]
  rfl

lemma csh_drop71 (sid S K kx : List Nat) (hS : S.length = 32) (hK : K.length = 32)
    (hsid : sid.length = 32) :
    (composeServerHello sid S K kx).1.drop 71 =
      [0xc0, 0x30, 0x00, 0x00, 0x2e] ++ keyShareHeader ++ kx ++ supportedVersionsExt := by
  rw [csh_fst]
  have hx : (xor S K).length = 32 := xor_length32 S K hS hK
  rw [show ([0x02, 0x00, 0x00, 0x76, 0x03, 0x03] ++ xor S K ++ [0x20] ++ sid ++
      ([0xc0, 0x30, 0x00, 0x00, 0x2e] ++ keyShareHeader ++ kx ++ supportedVersionsExt) : List Nat) =
      ([0x02, 0x00, 0x00, 0x76, 0x03, 0x03] ++ xor S K ++ [0x20] ++ sid) ++
      ([0xc0, 0x30, 0x00, 0x00, 0x2e] ++ keyShareHeader ++ kx ++ supportedVersionsExt) by
    simp [List.append_assoc]]
  apply List.drop_left'
  simp [hx, hsid]

/-! ### C1 -/

/-- C1: for 32-byte buffers S (sharedSecret) and K (sessionKey), the
32-byte random field of the ServerHello produced by `composeServerHello`
(bytes 6..37 of the handshake message) is the byte-wise XOR of S and K,
and XOR-ing that field with S recovers K exactly. -/
theorem composeServerHello_random_xor (sid S K kx : List Nat)
    (hS : S.length = 32) (hK : K.length = 32) :
    ((composeServerHello sid S K kx).1.drop 6).take 32 = xor S K ∧
    xor (xor S K) S = K := by
  constructor
  · rw [csh_drop6]
    have hx : (xor S K).length = 32 := xor_length32 S K hS hK
    simp only [List.append_assoc]
    exact List.take_left' hx
  · exact xor_xor_cancel S K (by rw [hS, hK])

theorem composeServerHello_random_xor_witness :
    ((composeServerHello (List.replicate 32 0x61) (List.replicate 32 3) (List.replicate 32 5)
        (List.replicate 32 7)).1.drop 6).take 32 =
      xor (List.replicate 32 3) (List.replicate 32 5) ∧
    xor (xor (List.replicate 32 3) (List.replicate 32 5)) (List.replicate 32 3) =
      List.replicate 32 5 :=
  composeServerHello_random_xor (List.replicate 32 0x61) (List.replicate 32 3)
    (List.replicate 32 5) (List.replicate 32 7) (by simp) (by simp)

/-! ### C2 -/

/-- Authentication stub used in the C2 counterexample: it accepts and
hands back the all-zero 32-byte shared secret. -/
def tsC2 : ClientHello → Except String AuthResult :=
  fun _ => .ok ⟨[1], 7, "socks", 0, List.replicate 32 0⟩

/-- C2 counterexample: the reply-sender returned by `PrepareConnection`
does NOT leave the captured sharedSecret buffer unchanged.  Here the
captured secret is the all-zero buffer; invoking the finisher with the
all-0xff session key leaves the buffer holding all 0xff — the in-place
`xor` inside `composeServerHello` overwrote it. -/
theorem finisher_mutates_secret_cex :
    (PrepareConnection tsC2 ["socks"] helloPkt).toOption.map
        (fun r => (r.2 (List.replicate 32 0xff) (List.replicate 32 7)).2) =
      some (List.replicate 32 0xff) ∧
    (List.replicate 32 0xff : List Nat) ≠ List.replicate 32 0 :=
  ⟨by decide, by decide⟩

/-- C2 amended: invoking the reply-sender mutates the captured
sharedSecret buffer in place to sharedSecret XOR sessionKey (the
ClientHello is untouched); the buffer keeps its capture-time value only
when the session key is all-zero. -/
theorem composeServerHello_secret_mutation (sid S K kx : List Nat)
    (hS : S.length = 32) (hK : K.length = 32) :
    (composeServerHello sid S K kx).2 = xor S K ∧
    ((composeServerHello sid S K kx).2 = S ↔ K = List.replicate 32 0) := by
  refine ⟨rfl, ?_⟩
  show xor S K = S ↔ _
  rw [xor_eq_left_iff S K (by rw [hS, hK]), hS]

theorem composeServerHello_secret_mutation_witness :
    (composeServerHello (List.replicate 32 0x61) (List.replicate 32 3) (List.replicate 32 5)
        (List.replicate 32 7)).2 = xor (List.replicate 32 3) (List.replicate 32 5) ∧
    ((composeServerHello (List.replicate 32 0x61) (List.replicate 32 3) (List.replicate 32 5)
        (List.replicate 32 7)).2 = List.replicate 32 3 ↔
      List.replicate 32 5 = List.replicate 32 0) :=
  composeServerHello_secret_mutation (List.replicate 32 0x61) (List.replicate 32 3)
    (List.replicate 32 5) (List.replicate 32 7) (by simp) (by simp)

/-! ### C5 -/

/-- C5: across any two invocations of `composeServerHello` with
arbitrary (sessionId, sharedSecret, sessionKey) inputs (and the same
random tape for the decorative server key share), every output byte
outside the 32-byte random field (offsets 6..37) and the 32-byte session
id (offsets 39..70) is identical: same length, same first 6 bytes
(type, length, version), same session-id-length byte at offset 38, and
same tail from offset 71 on (cipher suite, compression method, and all
extension bytes). -/
theorem composeServerHello_fixed_shape (sid1 S1 K1 sid2 S2 K2 kx : List Nat)
    (hsid1 : sid1.length = 32) (hS1 : S1.length = 32) (hK1 : K1.length = 32)
    (hsid2 : sid2.length = 32) (hS2 : S2.length = 32) (hK2 : K2.length = 32) :
    (composeServerHello sid1 S1 K1 kx).1.length = (composeServerHello sid2 S2 K2 kx).1.length ∧
    (composeServerHello sid1 S1 K1 kx).1.take 6 = (composeServerHello sid2 S2 K2 kx).1.take 6 ∧
    ((composeServerHello sid1 S1 K1 kx).1.drop 38).take 1 =
      ((composeServerHello sid2 S2 K2 kx).1.drop 38).take 1 ∧
    (composeServerHello sid1 S1 K1 kx).1.drop 71 = (composeServerHello sid2 S2 K2 kx).1.drop 71 := by
  refine ⟨?_, ?_, ?_, ?_⟩
  · rw [csh_length _ _ _ _ hS1 hK1 hsid1, csh_length _ _ _ _ hS2 hK2 hsid2]
  · rw [csh_take6, csh_take6]
  · rw [csh_byte38 _ _ _ _ hS1 hK1, csh_byte38 _ _ _ _ hS2 hK2]
  · rw [csh_drop71 _ _ _ _ hS1 hK1 hsid1, csh_drop71 _ _ _ _ hS2 hK2 hsid2]

theorem composeServerHello_fixed_shape_witness :
    (composeServerHello (List.replicate 32 0x61) (List.replicate 32 3) (List.replicate 32 5)
        (List.replicate 32 7)).1.length =
      (composeServerHello (List.replicate 32 0x42) (List.replicate 32 11) (List.replicate 32 13)
        (List.replicate 32 7)).1.length ∧
    (composeServerHello (List.replicate 32 0x61) (List.replicate 32 3) (List.replicate 32 5)
        (List.replicate 32 7)).1.take 6 =
      (composeServerHello (List.replicate 32 0x42) (List.replicate 32 11) (List.replicate 32 13)
        (List.replicate 32 7)).1.take 6 ∧
    ((composeServerHello (List.replicate 32 0x61) (List.replicate 32 3) (List.replicate 32 5)
        (List.replicate 32 7)).1.drop 38).take 1 =
      ((composeServerHello (List.replicate 32 0x42) (List.replicate 32 11) (List.replicate 32 13)
        (List.replicate 32 7)).1.drop 38).take 1 ∧
    (composeServerHello (List.replicate 32 0x61) (List.replicate 32 3) (List.replicate 32 5)
        (List.replicate 32 7)).1.drop 71 =
      (composeServerHello (List.replicate 32 0x42) (List.replicate 32 11) (List.replicate 32 13)
        (List.replicate 32 7)).1.drop 71 :=
  composeServerHello_fixed_shape (List.replicate 32 0x61) (List.replicate 32 3)
    (List.replicate 32 5) (List.replicate 32 0x42) (List.replicate 32 11) (List.replicate 32 13)
    (List.replicate 32 7) (by simp) (by simp) (by simp) (by simp) (by simp) (by simp)

/-! ### C4 -/

/-- C4 counterexample: for the parsed valid ClientHello `helloCh` (32-byte
session id, 32-byte x25519 key share) and 32-byte shared secret and
session key, the composed reply does NOT begin with
`0x16 0x03 0x03 0x00 0x4C`: the record length byte is 0x7A (122), not
0x4C (76). -/
theorem composeReply_header_cex :
    parseClientHello helloPkt = (some helloCh, none) ∧
    (composeReply helloCh (List.replicate 32 3) (List.replicate 32 5)
        (List.replicate 32 7)).1.take 5 ≠ [0x16, 0x03, 0x03, 0x00, 0x4c] :=
  ⟨helloPkt_parses, by decide⟩

/-- C4 amended: for every syntactically valid ClientHello with a 32-byte
session id, and 32-byte shared secret and session key, the composed
reply's first 5 bytes are `0x16 0x03 0x03 0x00 0x7A` (handshake record
header, length 122), immediately followed by a ServerHello beginning
`0x02 0x00 0x00 0x76`. -/
theorem composeReply_header (data : List Nat) (ch : ClientHello) (S K kx : List Nat)
    (_hp : parseClientHello data = (some ch, none)) (hsid : ch.sessionId.length = 32)
    (hS : S.length = 32) (hK : K.length = 32) (hkx : kx.length = 32) :
    (composeReply ch S K kx).1.take 5 = [0x16, 0x03, 0x03, 0x00, 0x7a] ∧
    ((composeReply ch S K kx).1.drop 5).take 4 = [0x02, 0x00, 0x00, 0x76] := by
  have hlen : (composeServerHello ch.sessionId S K kx).1.length = 122 := by
    rw [csh_length _ _ _ _ hS hK hsid, hkx]
  constructor
  · show (addRecordLayer (composeServerHello ch.sessionId S K kx).1 [0x16] [0x03, 0x03] ++
        addRecordLayer [0x01] [0x14] [0x03, 0x03]).take 5 = _
    unfold addRecordLayer
    rw [hlen]
    rfl
  · show ((addRecordLayer (composeServerHello ch.sessionId S K kx).1 [0x16] [0x03, 0x03] ++
        addRecordLayer [0x01] [0x14] [0x03, 0x03]).drop 5).take 4 = _
    unfold addRecordLayer
    rw [hlen, csh_fst]
    rfl

theorem composeReply_header_witness :
    (composeReply helloCh (List.replicate 32 3) (List.replicate 32 5)
        (List.replicate 32 7)).1.take 5 = [0x16, 0x03, 0x03, 0x00, 0x7a] ∧
    ((composeReply helloCh (List.replicate 32 3) (List.replicate 32 5)
        (List.replicate 32 7)).1.drop 5).take 4 = [0x02, 0x00, 0x00, 0x76] :=
  composeReply_header helloPkt helloCh (List.replicate 32 3) (List.replicate 32 5)
    (List.replicate 32 7) helloPkt_parses (by decide) (by simp) (by simp) (by simp)

/-! ### C10 -/

/-- C10: `addRecordLayer` writes the payload length modulo 2^16 into the
2-byte big-endian length field while appending the whole payload; for a
payload of 65536 bytes or more the declared length silently wraps and
disagrees with the actual payload length, with no error reported. -/
theorem addRecordLayer_wraps (input typ ver : List Nat)
    (htyp : typ.length = 1) (hver : ver.length = 2) :
    (addRecordLayer input typ ver).length = 5 + input.length ∧
    (addRecordLayer input typ ver).drop 5 = input ∧
    (addRecordLayer input typ ver)[3]! * 256 + (addRecordLayer input typ ver)[4]! =
      input.length % 65536 ∧
    (65536 ≤ input.length →
      (addRecordLayer input typ ver)[3]! * 256 + (addRecordLayer input typ ver)[4]! ≠
        input.length) := by
  obtain ⟨t, rfl⟩ := List.length_eq_one.mp htyp
  obtain ⟨v1, v2, rfl⟩ := List.length_eq_two.mp hver
  have hform : addRecordLayer input [t] [v1, v2] =
      t :: v1 :: v2 :: (input.length % 65536 / 256) :: (input.length % 65536 % 256) :: input :=
    rfl
  rw [hform]
  refine ⟨?_, rfl, ?_, ?_⟩
  · simp only [List.length_cons]
    omega
  · simp only [List.getElem!_cons_succ, List.getElem!_cons_zero]
    omega
  · intro hbig
    simp only [List.getElem!_cons_succ, List.getElem!_cons_zero]
    omega

theorem addRecordLayer_wraps_witness :
    (addRecordLayer (List.replicate 70000 0) [0x16] [0x03, 0x03]).length =
      5 + (List.replicate 70000 (0 : Nat)).length ∧
    (addRecordLayer (List.replicate 70000 0) [0x16] [0x03, 0x03]).drop 5 =
      List.replicate 70000 0 ∧
    (addRecordLayer (List.replicate 70000 0) [0x16] [0x03, 0x03])[3]! * 256 +
        (addRecordLayer (List.replicate 70000 0) [0x16] [0x03, 0x03])[4]! =
      (List.replicate 70000 (0 : Nat)).length % 65536 ∧
    (65536 ≤ (List.replicate 70000 (0 : Nat)).length →
      (addRecordLayer (List.replicate 70000 0) [0x16] [0x03, 0x03])[3]! * 256 +
          (addRecordLayer (List.replicate 70000 0) [0x16] [0x03, 0x03])[4]! ≠
        (List.replicate 70000 (0 : Nat)).length) :=
  addRecordLayer_wraps (List.replicate 70000 0) [0x16] [0x03, 0x03] (by simp) (by simp)

/-! ### C9 -/

/-- Wire bytes of one extension entry (tag, 2-byte big-endian length,
body). -/
def extEntryBytes (e : (Nat × Nat) × List Nat) : List Nat :=
  e.1.1 :: e.1.2 :: e.2.length / 256 :: e.2.length % 256 :: e.2

/-- Wire bytes of a sequence of extension entries. -/
def extFlatten (entries : ExtMap) : List Nat :=
  (entries.map extEntryBytes).flatten

/-- The map the decoder builds from a sequence of entries. -/
def extDecoded (entries : ExtMap) : ExtMap :=
  entries.foldl (fun m e => mapInsert m e.1 e.2) []

/-- A nonempty residue that makes the next decoding step overrun: fewer
than 4 bytes left (the 2-byte tag or 2-byte length read runs past the
end), or a declared body length exceeding what remains. -/
def badExtHead : List Nat → Bool
  | [] => false
  | [_] => true
  | [_, _] => true
  | [_, _, _] => true
  | _ :: _ :: c :: d :: rest => decide (rest.length < c * 256 + d)

lemma extLoop_flat (entries : ExtMap) (tail : List Nat) (acc : ExtMap) (fuel : Nat)
    (hfuel : (extFlatten entries).length < fuel) (hbad : badExtHead tail = true) :
    extLoop fuel (extFlatten entries ++ tail) acc =
      (entries.foldl (fun m e => mapInsert m e.1 e.2) acc, some "Malformed Extensions") := by
  induction entries generalizing acc fuel with
  | nil =>
    obtain ⟨f, rfl⟩ : ∃ f, fuel = f + 1 := ⟨fuel - 1, by omega⟩
    simp only [extFlatten, List.map_nil, List.flatten_nil, List.nil_append, List.foldl_nil]
    match tail, hbad with
    | [], hbad => exact (Bool.false_ne_true hbad).elim
    | [_], _ => rfl
    | [_, _], _ => rfl
    | [_, _, _], _ => rfl
    | a :: b :: c :: d :: rest, hbad =>
      have hov : ¬ (c * 256 + d ≤ rest.length) := by
        simp only [badExtHead, decide_eq_true_eq] at hbad
        omega
      simp only [extLoop, if_neg hov]
  | cons e es ih =>
    have hlen : (extFlatten (e :: es)).length =
        4 + e.2.length + (extFlatten es).length := by
      simp [extFlatten, extEntryBytes]
      omega
    obtain ⟨f, rfl⟩ : ∃ f, fuel = f + 1 := ⟨fuel - 1, by omega⟩
    have hflat : extFlatten (e :: es) ++ tail =
        e.1.1 :: e.1.2 :: (e.2.length / 256) :: (e.2.length % 256) ::
          (e.2 ++ (extFlatten es ++ tail)) := by
      simp [extFlatten, extEntryBytes]
    rw [hflat]
    simp only [extLoop]
    have hL : e.2.length / 256 * 256 + e.2.length % 256 = e.2.length := by omega
    rw [hL]
    rw [if_pos (by simp : e.2.length ≤ (e.2 ++ (extFlatten es ++ tail)).length)]
    rw [List.take_left, List.drop_left]
    rw [ih _ _ (by omega) ]
    simp

/-- C9 counterexample: an extension block holding one complete extension
((0,1) with body [170]) followed by a truncated second extension makes
`parseExtensions` signal the malformed-extensions error, yet the map it
returns alongside is the nonempty partial map of the entries decoded
before the overrun — a partial map IS returned. -/
theorem parseExtensions_partial_map_cex :
    parseExtensions [0, 1, 0, 1, 170, 0, 2, 0, 5, 187] =
      ([((0, 1), [170])], some "Malformed Extensions") ∧
    ([((0, 1), [170])] : ExtMap) ≠ [] :=
  ⟨by decide, by decide⟩

/-- C9 amended: when reading a 2-byte tag, a 2-byte length, or a
declared-length body would run past the end of the input,
`parseExtensions` signals the malformed-extensions error; the map
returned alongside the error is exactly the partial map of the entries
decoded before the overrun (so callers must go by the error, not the
map). -/
theorem parseExtensions_overrun (entries : ExtMap) (tail : List Nat)
    (hbad : badExtHead tail = true) :
    parseExtensions (extFlatten entries ++ tail) =
      (extDecoded entries, some "Malformed Extensions") := by
  unfold parseExtensions extDecoded
  exact extLoop_flat entries tail [] _
    (by simp only [List.length_append]; omega) hbad

theorem parseExtensions_overrun_witness :
    parseExtensions (extFlatten [((0, 1), [170])] ++ [0, 2, 0, 5, 187]) =
      (extDecoded [((0, 1), [170])], some "Malformed Extensions") :=
  parseExtensions_overrun [((0, 1), [170])] [0, 2, 0, 5, 187] (by decide)

/-! ### C3 -/

/-- The outcome the key-share extractor is specified to produce: the
first x25519 entry decides the result. -/
def ksResult (entries : List KSEntry) : Except String (List Nat) :=
  match entries.find? isX25519 with
  | none => .error "x25519 does not exist"
  | some e =>
    if e.body.length = 32 then .ok e.body
    else .error ("key share length should be 32, instead of " ++ toString e.body.length)

lemma keyShareLoop_flat (entries : List KSEntry) (trailing : List Nat) (fuel : Nat)
    (hfuel : (ksFlatten entries).length ≤ fuel) :
    keyShareLoop fuel (ksFlatten entries ++ trailing) ((ksFlatten entries).length - 2) =
      ksResult entries := by
  induction entries generalizing trailing fuel with
  | nil =>
    simp [ksFlatten, keyShareLoop, ksResult]
  | cons e es ih =>
    have hlen : (ksFlatten (e :: es)).length =
        4 + e.body.length + (ksFlatten es).length := by
      simp [ksFlatten, ksEntryBytes]
      omega
    obtain ⟨f, rfl⟩ : ∃ f, fuel = f + 1 := ⟨fuel - 1, by omega⟩
    have hflat : ksFlatten (e :: es) ++ trailing =
        e.group1 :: e.group2 :: (e.body.length / 256) :: (e.body.length % 256) ::
          (e.body ++ (ksFlatten es ++ trailing)) := by
      simp [ksFlatten, ksEntryBytes]
    have hR : (ksFlatten (e :: es)).length - 2 =
        (1 + e.body.length + (ksFlatten es).length) + 1 := by
      rw [hlen]; omega
    rw [hflat, hR]
    simp only [keyShareLoop]
    have hL : e.body.length / 256 * 256 + e.body.length % 256 = e.body.length := by omega
    rw [hL]
    by_cases hx : isX25519 e = true
    · have hx2 : e.group1 = 0x00 ∧ e.group2 = 0x1d := by
        simpa [isX25519] using hx
      rw [if_pos hx2]
      have hks : ksResult (e :: es) =
          (if e.body.length = 32 then Except.ok e.body
           else Except.error
             ("key share length should be 32, instead of " ++ toString e.body.length)) := by
        rw [ksResult, List.find?_cons_of_pos _ hx]
      rw [hks]
      by_cases h32 : e.body.length = 32
      · rw [if_neg (by omega), if_pos (by simp), if_pos h32]
        congr 1
        exact List.take_left e.body (ksFlatten es ++ trailing)
      · rw [if_pos h32, if_neg h32]
    · have hx2 : ¬ (e.group1 = 0x00 ∧ e.group2 = 0x1d) := by
        simpa [isX25519] using hx
      rw [if_neg hx2]
      rw [if_pos (by simp : e.body.length ≤ (e.body ++ (ksFlatten es ++ trailing)).length)]
      rw [List.drop_left]
      have hR2 : 1 + e.body.length + (ksFlatten es).length + 1 - (4 + e.body.length) =
          (ksFlatten es).length - 2 := by omega
      rw [hR2, ih trailing f (by omega)]
      rw [ksResult, ksResult, List.find?_cons_of_neg _ hx]

lemma parseKeyShare_flat (entries : List KSEntry) (trailing : List Nat) :
    parseKeyShare ((ksFlatten entries).length / 256 :: (ksFlatten entries).length % 256 ::
      (ksFlatten entries ++ trailing)) = ksResult entries := by
  simp only [parseKeyShare]
  have hT : (ksFlatten entries).length / 256 * 256 + (ksFlatten entries).length % 256 =
      (ksFlatten entries).length := by omega
  rw [hT]
  exact keyShareLoop_flat entries trailing _ (by omega)

/-- C3: for a key-share extension body made of a correct 2-byte total
length followed by well-formed entries (and arbitrary trailing bytes):
if the entry the scan finds for named group 0x001d has key-exchange
length exactly 32, `parseKeyShare` returns those 32 bytes unchanged; if
that entry's length is not 32, it fails with the error
"key share length should be 32, instead of N"; and if no 0x001d entry
exists, it fails with "x25519 does not exist". -/
theorem parseKeyShare_spec (entries : List KSEntry) (trailing : List Nat) :
    (∀ e, entries.find? isX25519 = some e → e.body.length = 32 →
      parseKeyShare ((ksFlatten entries).length / 256 :: (ksFlatten entries).length % 256 ::
        (ksFlatten entries ++ trailing)) = .ok e.body) ∧
    (∀ e, entries.find? isX25519 = some e → e.body.length ≠ 32 →
      parseKeyShare ((ksFlatten entries).length / 256 :: (ksFlatten entries).length % 256 ::
        (ksFlatten entries ++ trailing)) =
          .error ("key share length should be 32, instead of " ++ toString e.body.length)) ∧
    (entries.find? isX25519 = none →
      parseKeyShare ((ksFlatten entries).length / 256 :: (ksFlatten entries).length % 256 ::
        (ksFlatten entries ++ trailing)) = .error "x25519 does not exist") := by
  refine ⟨?_, ?_, ?_⟩
  · intro e hf h32
    rw [parseKeyShare_flat, ksResult, hf]
    simp [h32]
  · intro e hf h32
    rw [parseKeyShare_flat, ksResult, hf]
    simp [h32]
  · intro hf
    rw [parseKeyShare_flat, ksResult, hf]

theorem parseKeyShare_spec_witness :
    parseKeyShare ((ksFlatten [⟨0x00, 0x1d, List.replicate 32 7⟩]).length / 256 ::
        (ksFlatten [⟨0x00, 0x1d, List.replicate 32 7⟩]).length % 256 ::
        (ksFlatten [⟨0x00, 0x1d, List.replicate 32 7⟩] ++ [])) =
      .ok (List.replicate 32 7) ∧
    parseKeyShare ((ksFlatten [⟨0x00, 0x17, [1]⟩, ⟨0x00, 0x1d, [5]⟩]).length / 256 ::
        (ksFlatten [⟨0x00, 0x17, [1]⟩, ⟨0x00, 0x1d, [5]⟩]).length % 256 ::
        (ksFlatten [⟨0x00, 0x17, [1]⟩, ⟨0x00, 0x1d, [5]⟩] ++ [])) =
      .error ("key share length should be 32, instead of " ++ toString (1 : Nat)) ∧
    parseKeyShare ((ksFlatten [⟨0x00, 0x17, [1, 2]⟩]).length / 256 ::
        (ksFlatten [⟨0x00, 0x17, [1, 2]⟩]).length % 256 ::
        (ksFlatten [⟨0x00, 0x17, [1, 2]⟩] ++ [])) =
      .error "x25519 does not exist" :=
  ⟨(parseKeyShare_spec [⟨0x00, 0x1d, List.replicate 32 7⟩] []).1
      ⟨0x00, 0x1d, List.replicate 32 7⟩ (by decide) (by decide),
   (parseKeyShare_spec [⟨0x00, 0x17, [1]⟩, ⟨0x00, 0x1d, [5]⟩] []).2.1
      ⟨0x00, 0x1d, [5]⟩ (by decide) (by decide),
   (parseKeyShare_spec [⟨0x00, 0x17, [1, 2]⟩] []).2.2 (by decide)⟩

/-! ### C6 -/

lemma extLoop_snd (fuel : Nat) (rem : List Nat) (acc : ExtMap) :
    (extLoop fuel rem acc).2 = none ∨ (extLoop fuel rem acc).2 = some "Malformed Extensions" := by
  induction fuel generalizing rem acc with
  | zero =>
    match rem with
    | [] => exact Or.inl rfl
    | _ :: _ => exact Or.inr rfl
  | succ f ih =>
    match rem with
    | [] => exact Or.inl rfl
    | [_] => exact Or.inr rfl
    | [_, _] => exact Or.inr rfl
    | [_, _, _] => exact Or.inr rfl
    | a :: b :: c :: d :: rest =>
      simp only [extLoop]
      split
      · exact ih _ _
      · exact Or.inr rfl

lemma parseExtensions_snd (input : List Nat) (m : ExtMap) (e : Option String)
    (h : parseExtensions input = (m, e)) :
    e = none ∨ e = some "Malformed Extensions" := by
  have h2 := extLoop_snd (input.length + 1) input []
  rw [show extLoop (input.length + 1) input [] = parseExtensions input from rfl, h] at h2
  exact h2

lemma parseClientHelloAux_cases (p : List Nat) :
    parseClientHelloAux p = none ∨
    (∃ ch, parseClientHelloAux p = some (some ch, none)) ∨
    (∃ o m, parseClientHelloAux p = some (o, some m) ∧
      (m = "Not a ClientHello" ∨ m = "Hello length doesn't match" ∨
        m = "Malformed Extensions")) := by
  unfold parseClientHelloAux
  repeat' split
  all_goals try exact Or.inl rfl
  all_goals try exact Or.inr (Or.inr ⟨none, "Not a ClientHello", rfl, Or.inl rfl⟩)
  all_goals try
    exact Or.inr (Or.inr ⟨none, "Hello length doesn't match", rfl, Or.inr (Or.inl rfl)⟩)
  rename_i extensions extErr heq
  rcases parseExtensions_snd _ _ _ heq with h | h
  · subst h
    exact Or.inr (Or.inl ⟨_, rfl⟩)
  · subst h
    exact Or.inr (Or.inr ⟨_, _, rfl, Or.inr (Or.inr rfl)⟩)

/-- C6: `parseClientHello` is total over arbitrary inputs: every input
(including inputs shorter than the record header and inputs whose
length-prefixed fields overrun the buffer) yields either a parsed
ClientHello with no error, or one of the four error values of the
source — every modelled out-of-bounds read ends in a malformed-class
error value, never an unhandled fault. -/
theorem parseClientHello_total (data : List Nat) :
    (∃ ch, parseClientHello data = (some ch, none)) ∨
    (∃ o m, parseClientHello data = (o, some m) ∧
      (m = "Malformed ClientHello" ∨ m = "Not a ClientHello" ∨
        m = "Hello length doesn't match" ∨ m = "Malformed Extensions")) := by
  unfold parseClientHello
  split
  · exact Or.inr ⟨none, "Malformed ClientHello", rfl, Or.inl rfl⟩
  · rcases parseClientHelloAux_cases (data.drop 5) with h | ⟨ch, h⟩ | ⟨o, m, h, hm⟩ <;>
      rw [h]
    · exact Or.inr ⟨none, "Malformed ClientHello", rfl, Or.inl rfl⟩
    · exact Or.inl ⟨ch, rfl⟩
    · exact Or.inr ⟨o, m, rfl, by tauto⟩

/-! ### C7 -/

/-- C7: any input whose 3-byte declared handshake body length differs
from the actual remaining byte count after the length field is rejected
with an error (the length-mismatch error, or the not-a-ClientHello error
when the type byte already fails), and a parsed ClientHello is never
returned. -/
theorem parseClientHello_length_mismatch
    (b0 b1 b2 b3 b4 b5 b6 b7 b8 : Nat) (rest : List Nat)
    (hne : b6 * 65536 + b7 * 256 + b8 ≠ rest.length) :
    parseClientHello (b0 :: b1 :: b2 :: b3 :: b4 :: b5 :: b6 :: b7 :: b8 :: rest) =
        (none, some "Not a ClientHello") ∨
    parseClientHello (b0 :: b1 :: b2 :: b3 :: b4 :: b5 :: b6 :: b7 :: b8 :: rest) =
        (none, some "Hello length doesn't match") := by
  unfold parseClientHello
  rw [if_neg (by simp only [List.length_cons]; omega)]
  rw [show (b0 :: b1 :: b2 :: b3 :: b4 :: b5 :: b6 :: b7 :: b8 :: rest).drop 5 =
      b5 :: b6 :: b7 :: b8 :: rest from rfl]
  by_cases hb5 : b5 ≠ 0x01
  · left
    have haux : parseClientHelloAux (b5 :: b6 :: b7 :: b8 :: rest) =
        some (none, some "Not a ClientHello") := by
      simp only [parseClientHelloAux, read1]
      rw [if_pos hb5]
    rw [haux]
  · right
    have haux : parseClientHelloAux (b5 :: b6 :: b7 :: b8 :: rest) =
        some (none, some "Hello length doesn't match") := by
      simp only [parseClientHelloAux, read1]
      rw [if_neg hb5]
      simp only [show readN 3 (b6 :: b7 :: b8 :: rest) = some ([b6, b7, b8], rest) from by
        simp [readN]]
      rw [if_pos (show u32 (0x00 :: [b6, b7, b8]) ≠ rest.length from by
        show ((0x00 * 256 + b6) * 256 + b7) * 256 + b8 ≠ rest.length
        omega)]
    rw [haux]

theorem parseClientHello_length_mismatch_witness :
    parseClientHello (0x16 :: 0x03 :: 0x01 :: 0x00 :: 0x05 :: 0x01 :: 0x00 :: 0x00 :: 0x09 :: []) =
        (none, some "Not a ClientHello") ∨
    parseClientHello (0x16 :: 0x03 :: 0x01 :: 0x00 :: 0x05 :: 0x01 :: 0x00 :: 0x00 :: 0x09 :: []) =
        (none, some "Hello length doesn't match") :=
  parseClientHello_length_mismatch 0x16 0x03 0x01 0x00 0x05 0x01 0x00 0x00 0x09 [] (by decide)

/-! ### C8 -/

/-- Authentication stub that always rejects, for the C8 witness. -/
def tsReject : ClientHello → Except String AuthResult :=
  fun _ => .error "auth says no"

/-- Authentication stub that accepts with proxy method "socks", for the
C8 witness. -/
def tsSocks : ClientHello → Except String AuthResult :=
  fun _ => .ok ⟨[1], 7, "socks", 0, List.replicate 32 5⟩

/-- C8: `PrepareConnection` maps each failure to exactly one of its
three errors: a parse failure to `ErrBadClientHello`; a successful parse
followed by an authentication failure to `ErrNotCloak` (whatever the
underlying authentication error was); and a successful authentication
whose proxy method is absent from the registry to `ErrBadProxyMethod`.
In each case the result is an error, so no reply-sender is produced. -/
theorem prepareConnection_error_mapping :
    (∀ ts book fp o m, parseClientHello fp = (o, some m) →
      PrepareConnection ts book fp = .error ErrBadClientHello) ∧
    (∀ (ts : ClientHello → Except String AuthResult) book fp ch e,
      parseClientHello fp = (some ch, none) → ts ch = .error e →
      PrepareConnection ts book fp = .error ErrNotCloak) ∧
    (∀ (ts : ClientHello → Except String AuthResult) (book : List String) fp ch a,
      parseClientHello fp = (some ch, none) → ts ch = .ok a →
      book.contains a.proxyMethod = false →
      PrepareConnection ts book fp = .error ErrBadProxyMethod) := by
  refine ⟨?_, ?_, ?_⟩
  · intro ts book fp o m hp
    unfold PrepareConnection
    rw [hp]
    cases o <;> rfl
  · intro ts book fp ch e hp ha
    unfold PrepareConnection
    rw [hp]
    simp only [ha]
  · intro ts book fp ch a hp ha hb
    unfold PrepareConnection
    rw [hp]
    simp only [ha]
    rw [if_neg (by simp only [hb]; decide)]

theorem prepareConnection_error_mapping_witness :
    PrepareConnection tsReject ["socks"] [] = .error ErrBadClientHello ∧
    PrepareConnection tsReject ["socks"] helloPkt = .error ErrNotCloak ∧
    PrepareConnection tsSocks [] helloPkt = .error ErrBadProxyMethod :=
  ⟨prepareConnection_error_mapping.1 tsReject ["socks"] [] none "Malformed ClientHello" (by decide),
   prepareConnection_error_mapping.2.1 tsReject ["socks"] helloPkt helloCh "auth says no"
     helloPkt_parses rfl,
   prepareConnection_error_mapping.2.2 tsSocks [] helloPkt helloCh ⟨[1], 7, "socks", 0,
     List.replicate 32 5⟩ helloPkt_parses rfl (by decide)⟩

end Cloak
